import Mathlib

/-!
Verification of the DeviceKit-power daemon orchestration layer
(src/dkp-daemon.c) against its natural-language specification.

The C source is shallowly embedded: the private daemon record becomes a
Lean structure, the aggregation loops become list folds, the parsing of
the kernel text sources becomes structural recursion over character
lists, and the effectful request handlers (Suspend, Hibernate, startup,
lifecycle callbacks) become pure functions returning the event trace the
C code would produce, parametrised by the outcomes of the external
collaborators (polkit, spawn, dbus, backend).
-/

namespace DkpDaemonModel

/-- Device type enumeration; only battery and line-power matter to the
daemon logic, everything else is `other` (mirrors DkpDeviceType). -/
inductive DkpDeviceType where
  | battery
  | linePower
  | other
deriving DecidableEq, Repr

/-- A device handle as seen by the daemon. Modelled from the spec: the
Device capability interface lives in dkp-device.c which is not part of
this source tree; per the spec each query (dkp_device_get_on_battery,
dkp_device_get_low_battery, dkp_device_get_online) either succeeds with
a boolean (`some b`) or fails / is not applicable for the device type
(`none`). The daemon code only consumes the (success, value) pair. -/
structure DkpDevice where
  object_path : String
  type : DkpDeviceType
  get_on_battery : Option Bool
  get_low_battery : Option Bool
  get_online : Option Bool
deriving DecidableEq, Repr

/-- The daemon private state record (struct DkpDaemonPrivate), with the
registry held as the list of devices in insertion order (the GPtrArray
behind DkpDeviceList). -/
structure DaemonPriv where
  on_battery : Bool
  low_battery : Bool
  lid_is_closed : Bool
  lid_is_present : Bool
  kernel_can_suspend : Bool
  kernel_can_hibernate : Bool
  kernel_has_swap_space : Bool
  power_devices : List DkpDevice
deriving DecidableEq, Repr

/-- The field values dkp_daemon_init installs before probing
(all flags FALSE, empty device list). -/
def emptyPriv : DaemonPriv :=
  { on_battery := false
    low_battery := false
    lid_is_closed := false
    lid_is_present := false
    kernel_can_suspend := false
    kernel_can_hibernate := false
    kernel_has_swap_space := false
    power_devices := [] }

/-- Embedding of dkp_daemon_get_on_battery_local: result starts FALSE
and the loop breaks with TRUE on the first device whose on-battery query
succeeds with TRUE. -/
def dkp_daemon_get_on_battery_local (devices : List DkpDevice) : Bool :=
  devices.any fun d => d.get_on_battery == some true

/-- Embedding of dkp_daemon_get_on_ac_local: result starts FALSE and the
loop breaks with TRUE on the first device whose online query succeeds
with TRUE. -/
def dkp_daemon_get_on_ac_local (devices : List DkpDevice) : Bool :=
  devices.any fun d => d.get_online == some true

/-- Embedding of dkp_daemon_get_low_battery_local: result starts TRUE
and the loop breaks with FALSE on the first device whose low-battery
query succeeds with FALSE. -/
def dkp_daemon_get_low_battery_local (devices : List DkpDevice) : Bool :=
  devices.all fun d => !(d.get_low_battery == some false)

/-- The expression the daemon stores into priv.on_battery, both at
startup (line 568) and in dkp_daemon_device_changed_cb (line 664):
on-battery-local AND NOT on-ac-local. -/
def on_battery_aggregate (devices : List DkpDevice) : Bool :=
  dkp_daemon_get_on_battery_local devices && !(dkp_daemon_get_on_ac_local devices)

/-- Splitter mirroring g_strsplit (contents, newline, -1): every newline
starts a new field, empty fields are kept. On the empty string g_strsplit
returns an empty vector and the C loop (which starts at index 1) reads
past it; we model that degenerate case as producing no scannable line. -/
def splitNl : List Char → List (List Char)
  | [] => [[]]
  | c :: rest =>
    let r := splitNl rest
    if c = Char.ofNat 10 then [] :: r
    else
      match r with
      | [] => [[c]]
      | t :: ts => (c :: t) :: ts

/-- Splitter mirroring g_strsplit_set (line, ": ", -1): a colon or a
space each terminate a field, empty fields are kept. -/
def splitColonSpace : List Char → List (List Char)
  | [] => [[]]
  | c :: rest =>
    let r := splitColonSpace rest
    if c = Char.ofNat 58 ∨ c = Char.ofNat 32 then [] :: r
    else
      match r with
      | [] => [[c]]
      | t :: ts => (c :: t) :: ts

/-- Accumulate the leading decimal digits, as atoi does after the sign. -/
def digitsAcc : List Char → Int → Int
  | [], acc => acc
  | c :: rest, acc =>
    if c.isDigit then digitsAcc rest (acc * 10 + ((c.toNat : Int) - 48))
    else acc

/-- True for the characters the C isspace classifies as whitespace. -/
def isCSpace (c : Char) : Bool :=
  c = Char.ofNat 32 || c = Char.ofNat 9 || c = Char.ofNat 10 ||
  c = Char.ofNat 11 || c = Char.ofNat 12 || c = Char.ofNat 13

/-- Drop the leading whitespace, as atoi does before the sign. -/
def skipCSpace : List Char → List Char
  | [] => []
  | c :: rest => if isCSpace c then skipCSpace rest else c :: rest

/-- The signed-digit phase of atoi (after leading whitespace). -/
def atoiSigned : List Char → Int
  | c :: rest =>
    if c = Char.ofNat 45 then - digitsAcc rest 0
    else if c = Char.ofNat 43 then digitsAcc rest 0
    else digitsAcc (c :: rest) 0
  | [] => 0

/-- Embedding of atoi: skip whitespace, optional sign, leading digits;
no digits gives 0. -/
def atoi (s : List Char) : Int :=
  atoiSigned (skipCSpace s)

/-- Conversion of a C int value to guint (two-complement wraparound into
the range of a 32-bit unsigned). -/
def toGuint (n : Int) : Nat :=
  (n.emod (2 ^ 32)).toNat

/-- One iteration of the meminfo scanning loop in dkp_daemon_check_swap:
state is the pair (active, swap_free); a line is split on colon and
space, and if it has more than 3 tokens and its first token is SwapFree
or Active, the corresponding counter is overwritten with atoi of the
second-to-last token. -/
def swapScanLine (st : Nat × Nat) (line : List Char) : Nat × Nat :=
  let tokens := splitColonSpace line
  let len := tokens.length
  if 3 < len then
    if tokens.headD [] = "SwapFree".data then
      (st.1, toGuint (atoi (tokens.getD (len - 2) [])))
    else if tokens.headD [] = "Active".data then
      (toGuint (atoi (tokens.getD (len - 2) [])), st.2)
    else st
  else st

/-- The (active, swap_free) pair dkp_daemon_check_swap extracts from the
meminfo text. The C loop starts at index 1, so the first line of the
file is never scanned. -/
def swapFields (contents : String) : Nat × Nat :=
  ((splitNl contents.data).drop 1).foldl swapScanLine (0, 0)

/-- Embedding of dkp_daemon_check_swap. The argument is the contents of
/proc/meminfo, or none when g_file_get_contents failed; on failure the
initial percentage 0 is returned. The percentage (active * 100) /
swap_free is computed in guint arithmetic (the product wraps modulo
2^32, the division truncates); the result is a natural number and the C
float it is converted to compares with the 80.0f waterline exactly as
the natural does with 80, because naturals below 2^24 convert exactly
and larger ones stay far above 80. -/
def dkp_daemon_check_swap (contents : Option String) : Nat :=
  match contents with
  | none => 0
  | some c =>
    let fields := swapFields c
    let active := fields.1
    let swap_free := fields.2
    if 0 < swap_free ∧ 0 < active then (active * 100) % 2 ^ 32 / swap_free
    else 0

/-- Substring test helper: does the second list start with the first. -/
def leadMatch : List Char → List Char → Bool
  | [], _ => true
  | _ :: _, [] => false
  | b :: bs, a :: as => b = a && leadMatch bs as

/-- Embedding of g_strstr_len (haystack, -1, needle) converted to a
boolean: does the needle occur anywhere in the haystack. -/
def hasSub (sub : List Char) : List Char → Bool
  | [] => leadMatch sub []
  | c :: rest => leadMatch sub (c :: rest) || hasSub sub rest

/-- Embedding of dkp_daemon_check_state. The argument is the contents of
/sys/power/state, or none when the read failed; on failure the two flags
are left as they were (FALSE at init time). -/
def dkp_daemon_check_state (contents : Option String) (priv : DaemonPriv) : DaemonPriv :=
  match contents with
  | none => priv
  | some c =>
    { priv with
        kernel_can_suspend := hasSub "mem".data c.data
        kernel_can_hibernate := hasSub "disk".data c.data }

/-- Embedding of dkp_daemon_init, parametrised by the two kernel text
sources: fields are cleared, dkp_daemon_check_state probes suspend and
hibernate support, and only when hibernate is kernel-supported is the
swap waterline checked; kernel_has_swap_space becomes true exactly when
the measured percentage is strictly below the 80 waterline. -/
def dkp_daemon_init (stateContents meminfoContents : Option String) : DaemonPriv :=
  let p := dkp_daemon_check_state stateContents emptyPriv
  if p.kernel_can_hibernate then
    if dkp_daemon_check_swap meminfoContents < 80 then
      { p with kernel_has_swap_space := true }
    else p
  else p

/-- The can-suspend property as served by dkp_daemon_get_property. -/
def get_can_suspend (p : DaemonPriv) : Bool :=
  p.kernel_can_suspend

/-- The can-hibernate property as served by dkp_daemon_get_property:
kernel_can_hibernate AND kernel_has_swap_space. -/
def get_can_hibernate (p : DaemonPriv) : Bool :=
  p.kernel_can_hibernate && p.kernel_has_swap_space

/-- The on-low-battery property as served by dkp_daemon_get_property. -/
def get_on_low_battery (p : DaemonPriv) : Bool :=
  p.on_battery && p.low_battery

/-- The error codes of the DkpDaemonError domain, with their registered
external names GeneralError, NotSupported, NoSuchDevice. -/
inductive DkpErrorCode where
  | general
  | notSupported
  | noSuchDevice
deriving DecidableEq, Repr

/-- Observable events of a Suspend or Hibernate request, in the order
the handler performs them: subject extraction and policy check against
polkit, synchronous subprocess spawn, each call of g_error_free (whose
argument is none when the freed pointer is NULL), and the reply sent on
the bus. -/
inductive PowerEvent where
  | getSubject
  | checkAuth (action : String)
  | spawnSync (cmd : String)
  | freeError (freed : Option String)
  | returnError (code : DkpErrorCode) (msg : String)
  | returnOk
deriving DecidableEq, Repr

/-- Outcomes of the external collaborators consulted by a Suspend or
Hibernate request: whether dkp_polkit_get_subject returns a subject,
whether dkp_polkit_check_auth grants, whether the spawn succeeds, and
the message carried by error_local when the spawn fails. -/
structure PowerEnv where
  subject_ok : Bool
  auth_ok : Bool
  spawn_ok : Bool
  spawn_err : String
deriving DecidableEq, Repr

/-- Embedding of dkp_daemon_suspend as the trace of observable events.
The capability gate branch builds a DKP_DAEMON_ERROR_GENERAL error,
calls g_error_free on error_local (still NULL there) and replies with
the error; otherwise the subject is extracted, the policy is checked,
and pm-suspend is spawned synchronously. -/
def dkp_daemon_suspend (priv : DaemonPriv) (env : PowerEnv) : List PowerEvent :=
  if !priv.kernel_can_suspend then
    [.freeError none, .returnError .general "No kernel support"]
  else
    .getSubject ::
      if !env.subject_ok then []
      else
        .checkAuth "org.freedesktop.devicekit.power.suspend" ::
          if !env.auth_ok then []
          else
            .spawnSync "/usr/sbin/pm-suspend" ::
              if !env.spawn_ok then
                [.freeError (some env.spawn_err),
                 .returnError .general ("Failed to spawn: " ++ env.spawn_err)]
              else [.returnOk]

/-- Embedding of dkp_daemon_hibernate as the trace of observable events:
two capability gates (kernel support, then swap space), each replying
with a DKP_DAEMON_ERROR_GENERAL error after a g_error_free of the still
NULL error_local, then the same subject / policy / spawn sequence with
pm-hibernate. -/
def dkp_daemon_hibernate (priv : DaemonPriv) (env : PowerEnv) : List PowerEvent :=
  if !priv.kernel_can_hibernate then
    [.freeError none, .returnError .general "No kernel support"]
  else if !priv.kernel_has_swap_space then
    [.freeError none, .returnError .general "Not enough swap space"]
  else
    .getSubject ::
      if !env.subject_ok then []
      else
        .checkAuth "org.freedesktop.devicekit.power.hibernate" ::
          if !env.auth_ok then []
          else
            .spawnSync "/usr/sbin/pm-hibernate" ::
              if !env.spawn_ok then
                [.freeError (some env.spawn_err),
                 .returnError .general ("Failed to spawn: " ++ env.spawn_err)]
              else [.returnOk]

/-- True when the trace touches the authorization subsystem or spawns a
subprocess. -/
def hasAuthOrSpawn (tr : List PowerEvent) : Bool :=
  tr.any fun e =>
    match e with
    | .getSubject => true
    | .checkAuth _ => true
    | .spawnSync _ => true
    | _ => false

/-- True when the trace replies with an error of the given code. -/
def repliesWithCode (code : DkpErrorCode) (tr : List PowerEvent) : Bool :=
  tr.any fun e =>
    match e with
    | .returnError c _ => c == code
    | _ => false

/-- Outcomes of the external collaborators consulted by startup:
whether dbus registration succeeds, whether the backend coldplug call
succeeds, and the devices the coldplug delivered through the added
callbacks before it returned. -/
structure StartupEnv where
  register_ok : Bool
  coldplug_ok : Bool
  coldplug_devices : List DkpDevice
deriving DecidableEq, Repr

/-- Embedding of dkp_daemon_startup: a failed bus registration returns
FALSE at once; the backend coldplug then populates the registry, and a
FALSE coldplug return also makes startup return FALSE (the goto out
path), skipping the aggregate computation; on success the initial
on_battery and low_battery aggregates are stored and TRUE is returned.
The fire-and-forget pm-powersave spawn has no effect on daemon state and
is not modelled. -/
def dkp_daemon_startup (priv : DaemonPriv) (env : StartupEnv) : Bool × DaemonPriv :=
  if !env.register_ok then (false, priv)
  else
    let p1 := { priv with power_devices := priv.power_devices ++ env.coldplug_devices }
    if !env.coldplug_ok then (false, p1)
    else
      (true,
       { p1 with
           on_battery := on_battery_aggregate p1.power_devices
           low_battery := dkp_daemon_get_low_battery_local p1.power_devices })

/-- Embedding of dkp_daemon_set_lid_is_closed: the result is the C
return value, the updated private record, and the number of CHANGED
signal emissions. A duplicate value short-circuits to out with FALSE;
otherwise the signal is emitted only when notify is TRUE, and the value
is stored. -/
def dkp_daemon_set_lid_is_closed (priv : DaemonPriv) (lid_is_closed notify : Bool) :
    Bool × DaemonPriv × Nat :=
  if priv.lid_is_closed == lid_is_closed then (false, priv, 0)
  else
    (true, { priv with lid_is_closed := lid_is_closed }, if notify then 1 else 0)

/-- Signals the daemon object emits on the bus: per-device added and
removed notifications carrying the object path, and the payload-free
aggregate changed notification. -/
inductive DSignal where
  | deviceAdded (object_path : String)
  | deviceRemoved (object_path : String)
  | changed
deriving DecidableEq, Repr

/-- The observable world around the daemon for the lifecycle callbacks:
the private record, the identities on which dkp_device_removed has been
called (marking the device object as removed), the ordered log of
emitted daemon signals, and the number of glib timeout sources the
daemon has registered that have not yet fired (pending battery-refresh
timers). -/
structure DaemonWorld where
  priv : DaemonPriv
  removed_marked : List String
  signals : List DSignal
  pending_timers : Nat
deriving DecidableEq, Repr

/-- A fresh world around a fresh daemon. -/
def emptyWorld : DaemonWorld :=
  { priv := emptyPriv
    removed_marked := []
    signals := []
    pending_timers := 0 }

/-- Embedding of dkp_device_list_remove: the entry of the released
device object (identified by its object path) is dropped from the
GPtrArray. -/
def dkp_device_list_remove (devices : List DkpDevice) (device : DkpDevice) : List DkpDevice :=
  devices.filter fun d => !(d.object_path == device.object_path)

/-- Embedding of dkp_daemon_device_added_cb: a weak reference is taken
on the device, it is inserted into the registry, and the device-added
signal is emitted only when the backend asked for it (emit_signal). -/
def dkp_daemon_device_added_cb (w : DaemonWorld) (device : DkpDevice)
    (emit_signal : Bool) : DaemonWorld :=
  { w with
      priv := { w.priv with power_devices := w.priv.power_devices ++ [device] }
      signals := w.signals ++ if emit_signal then [.deviceAdded device.object_path] else [] }

/-- Embedding of dkp_daemon_device_went_away_cb, the weak-reference
notification fired when the external owner released the device object:
the device is dropped from the registry and nothing else happens (no
signal is emitted). -/
def dkp_daemon_device_went_away_cb (w : DaemonWorld) (device : DkpDevice) : DaemonWorld :=
  { w with
      priv := { w.priv with
                  power_devices := dkp_device_list_remove w.priv.power_devices device } }

/-- Embedding of dkp_daemon_device_removed_cb, the explicit backend
remove event: dkp_device_removed marks the device object as removed,
the device-removed signal is emitted with its object path, and the
g_object_unref releases the object, which fires the weak-reference
notification dkp_daemon_device_went_away_cb and so drops the device
from the registry. -/
def dkp_daemon_device_removed_cb (w : DaemonWorld) (device : DkpDevice) : DaemonWorld :=
  let w1 :=
    { w with
        removed_marked := w.removed_marked ++ [device.object_path]
        signals := w.signals ++ [.deviceRemoved device.object_path] }
  dkp_daemon_device_went_away_cb w1 device

/-- Embedding of dkp_daemon_enumerate_devices: the object paths of the
registry entries, in order, as returned on the bus. -/
def dkp_daemon_enumerate_devices (w : DaemonWorld) : List String :=
  w.priv.power_devices.map fun d => d.object_path

/-- Embedding of dkp_daemon_device_changed_cb. The device-level refresh
(dkp_device_changed) and the immediate battery refresh act on device
objects outside the daemon record and are not modelled; when the changed
device is a line-power device, g_timeout_add_seconds registers one more
pending battery-refresh timer, unconditionally. Then the two aggregates
are recomputed from the registry: each one that differs from the stored
value is stored and the changed signal is emitted (the pm-powersave
spawn on an on_battery flip has no effect on daemon state). -/
def dkp_daemon_device_changed_cb (w : DaemonWorld) (device : DkpDevice)
    (emit_signal : Bool) : DaemonWorld :=
  let w1 :=
    if device.type == DkpDeviceType.linePower then
      { w with pending_timers := w.pending_timers + 1 }
    else w
  let ob := on_battery_aggregate w1.priv.power_devices
  let w2 :=
    if ob != w1.priv.on_battery then
      { w1 with
          priv := { w1.priv with on_battery := ob }
          signals := w1.signals ++ [.changed] }
    else w1
  let lb := dkp_daemon_get_low_battery_local w2.priv.power_devices
  if lb != w2.priv.low_battery then
    { w2 with
        priv := { w2.priv with low_battery := lb }
        signals := w2.signals ++ [.changed] }
  else w2

/-- Embedding of dkp_daemon_refresh_battery_devices_cb, the timeout
callback: it refreshes the battery devices (outside the daemon record)
and returns FALSE, so glib removes the fired source; the fired timer is
no longer pending. -/
def dkp_daemon_refresh_battery_devices_cb (w : DaemonWorld) : Bool × DaemonWorld :=
  (false, { w with pending_timers := w.pending_timers - 1 })

/-- A demonstration battery device: discharging, not low. -/
def batteryDemo : DkpDevice :=
  { object_path := "/org/freedesktop/DeviceKit/Power/devices/battery_BAT0"
    type := DkpDeviceType.battery
    get_on_battery := some true
    get_low_battery := some false
    get_online := none }

/-- A demonstration line-power device: offline. -/
def linePowerDemo : DkpDevice :=
  { object_path := "/org/freedesktop/DeviceKit/Power/devices/line_power_AC"
    type := DkpDeviceType.linePower
    get_on_battery := none
    get_low_battery := none
    get_online := some false }

/-- A demonstration registry with one battery and one line-power device. -/
def demoDevices : List DkpDevice :=
  [batteryDemo, linePowerDemo]

/-- A demonstration startup environment: registration and coldplug both
succeed and coldplug delivers one battery. -/
def startupEnvDemo : StartupEnv :=
  { register_ok := true
    coldplug_ok := true
    coldplug_devices := [batteryDemo] }

theorem on_battery_local_iff (devices : List DkpDevice) :
    dkp_daemon_get_on_battery_local devices = true ↔
      ∃ d ∈ devices, d.get_on_battery = some true := by
  simp [dkp_daemon_get_on_battery_local]

theorem on_ac_local_iff (devices : List DkpDevice) :
    dkp_daemon_get_on_ac_local devices = true ↔
      ∃ d ∈ devices, d.get_online = some true := by
  simp [dkp_daemon_get_on_ac_local]

theorem low_local_iff (devices : List DkpDevice) :
    dkp_daemon_get_low_battery_local devices = true ↔
      ∀ d ∈ devices, d.get_low_battery ≠ some false := by
  simp [dkp_daemon_get_low_battery_local]

/-- C1 (counterexample): with kernel_can_suspend false, Suspend does
not reply with a NotSupported error as the claim states: the reply
carries the GeneralError code, with message No kernel support. -/
theorem c1_suspend_gate_counterexample :
    repliesWithCode DkpErrorCode.notSupported
      (dkp_daemon_suspend emptyPriv ⟨true, true, true, ""⟩) = false ∧
    dkp_daemon_suspend emptyPriv ⟨true, true, true, ""⟩ =
      [.freeError none, .returnError .general "No kernel support"] := by
  decide

/-- C1 (amended): with kernel_can_suspend false, Suspend replies with a
GeneralError (message No kernel support) and performs no subject
extraction, no policy check and no subprocess spawn; the analogous gate
on Hibernate requires kernel_can_hibernate AND kernel_has_swap_space and
likewise replies with a GeneralError before any further action. -/
theorem c1_suspend_gate_amended (priv : DaemonPriv) (env : PowerEnv) :
    (priv.kernel_can_suspend = false →
      dkp_daemon_suspend priv env =
        [.freeError none, .returnError .general "No kernel support"] ∧
      hasAuthOrSpawn (dkp_daemon_suspend priv env) = false) ∧
    (priv.kernel_can_hibernate = false →
      dkp_daemon_hibernate priv env =
        [.freeError none, .returnError .general "No kernel support"] ∧
      hasAuthOrSpawn (dkp_daemon_hibernate priv env) = false) ∧
    (priv.kernel_can_hibernate = true → priv.kernel_has_swap_space = false →
      dkp_daemon_hibernate priv env =
        [.freeError none, .returnError .general "Not enough swap space"] ∧
      hasAuthOrSpawn (dkp_daemon_hibernate priv env) = false) := by
  refine ⟨?_, ?_, ?_⟩
  · intro h
    simp [dkp_daemon_suspend, h, hasAuthOrSpawn]
  · intro h
    simp [dkp_daemon_hibernate, h, hasAuthOrSpawn]
  · intro h1 h2
    simp [dkp_daemon_hibernate, h1, h2, hasAuthOrSpawn]

/-- C1 (witness): the amended statement evaluated on the fresh daemon
record, whose kernel_can_suspend flag is false. -/
theorem c1_suspend_gate_witness :
    emptyPriv.kernel_can_suspend = false ∧
    (dkp_daemon_suspend emptyPriv ⟨true, true, true, ""⟩ =
      [.freeError none, .returnError .general "No kernel support"] ∧
     hasAuthOrSpawn (dkp_daemon_suspend emptyPriv ⟨true, true, true, ""⟩) = false) :=
  ⟨by decide, (c1_suspend_gate_amended emptyPriv ⟨true, true, true, ""⟩).1 (by decide)⟩

/-- C2 (counterexample): when registration succeeds but the backend
coldplug fails, dkp_daemon_startup does not report success as the claim
states: it returns FALSE. -/
theorem c2_startup_counterexample :
    ¬ ((dkp_daemon_startup emptyPriv ⟨true, false, []⟩).1 = true) := by
  decide

/-- C2 (amended): startup fails when registration on the service
surface fails, and a failed coldplug of the hot-plug backend ALSO
aborts startup (it returns failure, skipping the aggregate
computation); when both succeed, startup reports success and stores the
initial on_battery and low_battery aggregates of the coldplugged
registry. -/
theorem c2_startup_amended (priv : DaemonPriv) (env : StartupEnv) :
    (env.register_ok = false → dkp_daemon_startup priv env = (false, priv)) ∧
    (env.coldplug_ok = false → (dkp_daemon_startup priv env).1 = false) ∧
    (env.register_ok = true → env.coldplug_ok = true →
      (dkp_daemon_startup priv env).1 = true ∧
      (dkp_daemon_startup priv env).2.on_battery =
        on_battery_aggregate (priv.power_devices ++ env.coldplug_devices) ∧
      (dkp_daemon_startup priv env).2.low_battery =
        dkp_daemon_get_low_battery_local (priv.power_devices ++ env.coldplug_devices)) := by
  refine ⟨?_, ?_, ?_⟩
  · intro h
    simp [dkp_daemon_startup, h]
  · intro h
    cases hr : env.register_ok <;> simp [dkp_daemon_startup, h, hr]
  · intro h1 h2
    simp [dkp_daemon_startup, h1, h2]

/-- C2 (witness): the amended statement evaluated on a startup where
registration and coldplug both succeed and one battery is delivered. -/
theorem c2_startup_witness :
    startupEnvDemo.register_ok = true ∧ startupEnvDemo.coldplug_ok = true ∧
    ((dkp_daemon_startup emptyPriv startupEnvDemo).1 = true ∧
     (dkp_daemon_startup emptyPriv startupEnvDemo).2.on_battery =
       on_battery_aggregate (emptyPriv.power_devices ++ startupEnvDemo.coldplug_devices) ∧
     (dkp_daemon_startup emptyPriv startupEnvDemo).2.low_battery =
       dkp_daemon_get_low_battery_local
         (emptyPriv.power_devices ++ startupEnvDemo.coldplug_devices)) :=
  ⟨rfl, rfl, (c2_startup_amended emptyPriv startupEnvDemo).2.2 rfl rfl⟩

/-- C3: under the device interface contract (a non-battery never
reports an on-battery value, a non-line-power never reports an online
value), the on_battery aggregate stored by the daemon is true iff some
battery successfully reports discharging and no line-power device
successfully reports online; with zero batteries it is false; and
dkp_daemon_device_changed_cb always stores exactly this aggregate of
the current registry. -/
theorem c3_on_battery_aggregate (devices : List DkpDevice)
    (hbat : ∀ d ∈ devices, d.type ≠ DkpDeviceType.battery → d.get_on_battery = none)
    (hlp : ∀ d ∈ devices, d.type ≠ DkpDeviceType.linePower → d.get_online = none) :
    (on_battery_aggregate devices = true ↔
      ((∃ d ∈ devices, d.type = DkpDeviceType.battery ∧ d.get_on_battery = some true) ∧
       ¬ ∃ d ∈ devices, d.type = DkpDeviceType.linePower ∧ d.get_online = some true)) ∧
    ((∀ d ∈ devices, d.type ≠ DkpDeviceType.battery) → on_battery_aggregate devices = false) ∧
    (∀ (w : DaemonWorld) (dev : DkpDevice) (e : Bool),
      (dkp_daemon_device_changed_cb w dev e).priv.on_battery =
        on_battery_aggregate w.priv.power_devices) := by
  have hagg : on_battery_aggregate devices = true ↔
      dkp_daemon_get_on_battery_local devices = true ∧
      dkp_daemon_get_on_ac_local devices = false := by
    simp [on_battery_aggregate]
  have hbat_iff : (∃ d ∈ devices, d.get_on_battery = some true) ↔
      ∃ d ∈ devices, d.type = DkpDeviceType.battery ∧ d.get_on_battery = some true := by
    constructor
    · rintro ⟨d, hd, hq⟩
      refine ⟨d, hd, ?_, hq⟩
      by_contra hne
      rw [hbat d hd hne] at hq
      exact Option.noConfusion hq
    · rintro ⟨d, hd, _, hq⟩
      exact ⟨d, hd, hq⟩
  have hlp_iff : (∃ d ∈ devices, d.get_online = some true) ↔
      ∃ d ∈ devices, d.type = DkpDeviceType.linePower ∧ d.get_online = some true := by
    constructor
    · rintro ⟨d, hd, hq⟩
      refine ⟨d, hd, ?_, hq⟩
      by_contra hne
      rw [hlp d hd hne] at hq
      exact Option.noConfusion hq
    · rintro ⟨d, hd, _, hq⟩
      exact ⟨d, hd, hq⟩
  refine ⟨?_, ?_, ?_⟩
  · rw [hagg]
    constructor
    · rintro ⟨h1, h2⟩
      refine ⟨hbat_iff.mp ((on_battery_local_iff devices).mp h1), ?_⟩
      intro hex
      obtain ⟨d, hd, _, hq⟩ := hex
      have hac : dkp_daemon_get_on_ac_local devices = true :=
        (on_ac_local_iff devices).mpr ⟨d, hd, hq⟩
      rw [h2] at hac
      exact Bool.noConfusion hac
    · rintro ⟨h1, h2⟩
      refine ⟨(on_battery_local_iff devices).mpr (hbat_iff.mpr h1), ?_⟩
      cases hcase : dkp_daemon_get_on_ac_local devices
      · rfl
      · exact absurd (hlp_iff.mp ((on_ac_local_iff devices).mp hcase)) h2
  · intro hnone
    have hfalse : dkp_daemon_get_on_battery_local devices = false := by
      cases hcase : dkp_daemon_get_on_battery_local devices
      · rfl
      · obtain ⟨d, hd, hty, _⟩ := hbat_iff.mp ((on_battery_local_iff devices).mp hcase)
        exact absurd hty (hnone d hd)
    simp [on_battery_aggregate, hfalse]
  · intro w dev e
    unfold dkp_daemon_device_changed_cb
    by_cases h1 : dev.type == DkpDeviceType.linePower <;>
      simp only [h1, Bool.false_eq_true, ite_true, ite_false] <;>
      split <;> split <;> simp_all

/-- C3 (witness): the equivalence evaluated on a registry with one
discharging battery and one offline line-power device. -/
theorem c3_on_battery_witness :
    (∀ d ∈ demoDevices, d.type ≠ DkpDeviceType.battery → d.get_on_battery = none) ∧
    (∀ d ∈ demoDevices, d.type ≠ DkpDeviceType.linePower → d.get_online = none) ∧
    (on_battery_aggregate demoDevices = true ↔
      ((∃ d ∈ demoDevices, d.type = DkpDeviceType.battery ∧ d.get_on_battery = some true) ∧
       ¬ ∃ d ∈ demoDevices, d.type = DkpDeviceType.linePower ∧ d.get_online = some true)) :=
  ⟨by decide, by decide,
   (c3_on_battery_aggregate demoDevices (by decide) (by decide)).1⟩

/-- C4: under the device interface contract (a non-battery never
reports a low-battery value), the low_battery aggregate is true iff
every battery whose low-battery query succeeds reports low; a registry
with zero batteries (hence zero successful reports) yields true; and
dkp_daemon_device_changed_cb always stores exactly this aggregate of
the current registry. -/
theorem c4_low_battery_aggregate (devices : List DkpDevice)
    (hbat : ∀ d ∈ devices, d.type ≠ DkpDeviceType.battery → d.get_low_battery = none) :
    (dkp_daemon_get_low_battery_local devices = true ↔
      ∀ d ∈ devices, d.type = DkpDeviceType.battery →
        ∀ b, d.get_low_battery = some b → b = true) ∧
    ((∀ d ∈ devices, d.type ≠ DkpDeviceType.battery) →
      dkp_daemon_get_low_battery_local devices = true) ∧
    (∀ (w : DaemonWorld) (dev : DkpDevice) (e : Bool),
      (dkp_daemon_device_changed_cb w dev e).priv.low_battery =
        dkp_daemon_get_low_battery_local w.priv.power_devices) := by
  have hmain : dkp_daemon_get_low_battery_local devices = true ↔
      ∀ d ∈ devices, d.type = DkpDeviceType.battery →
        ∀ b, d.get_low_battery = some b → b = true := by
    rw [low_local_iff]
    constructor
    · intro h d hd _ b hb
      cases b
      · exact absurd hb (h d hd)
      · rfl
    · intro h d hd hq
      by_cases hty : d.type = DkpDeviceType.battery
      · exact Bool.noConfusion (h d hd hty false hq)
      · rw [hbat d hd hty] at hq
        exact Option.noConfusion hq
  refine ⟨hmain, ?_, ?_⟩
  · intro hnone
    rw [low_local_iff]
    intro d hd hq
    rw [hbat d hd (hnone d hd)] at hq
    exact Option.noConfusion hq
  · intro w dev e
    unfold dkp_daemon_device_changed_cb
    by_cases h1 : dev.type == DkpDeviceType.linePower <;>
      simp only [h1, Bool.false_eq_true, ite_true, ite_false] <;>
      split <;> split <;> simp_all

/-- C4 (witness): the equivalence evaluated on a registry with one
non-low battery and one line-power device. -/
theorem c4_low_battery_witness :
    (∀ d ∈ demoDevices, d.type ≠ DkpDeviceType.battery → d.get_low_battery = none) ∧
    (dkp_daemon_get_low_battery_local demoDevices = true ↔
      ∀ d ∈ demoDevices, d.type = DkpDeviceType.battery →
        ∀ b, d.get_low_battery = some b → b = true) :=
  ⟨by decide, (c4_low_battery_aggregate demoDevices (by decide)).1⟩

/-- C5: after dkp_daemon_init, the externally exposed can-hibernate
property always equals kernel_can_hibernate AND kernel_has_swap_space:
it is false whenever kernel hibernate support is false, and false
whenever the measured swap pressure is at least the 80 waterline; the
kernel_has_swap_space flag is set true exactly when hibernate is
kernel-supported and the pressure is strictly below 80. -/
theorem c5_can_hibernate_property (st mi : Option String) :
    (get_can_hibernate (dkp_daemon_init st mi) =
      ((dkp_daemon_init st mi).kernel_can_hibernate &&
        (dkp_daemon_init st mi).kernel_has_swap_space)) ∧
    ((dkp_daemon_init st mi).kernel_can_hibernate = false →
      get_can_hibernate (dkp_daemon_init st mi) = false) ∧
    (80 ≤ dkp_daemon_check_swap mi → get_can_hibernate (dkp_daemon_init st mi) = false) ∧
    ((dkp_daemon_init st mi).kernel_has_swap_space = true ↔
      ((dkp_daemon_init st mi).kernel_can_hibernate = true ∧
        dkp_daemon_check_swap mi < 80)) := by
  have hsw : (dkp_daemon_check_state st emptyPriv).kernel_has_swap_space = false := by
    cases st <;> rfl
  unfold dkp_daemon_init get_can_hibernate
  by_cases hh : (dkp_daemon_check_state st emptyPriv).kernel_can_hibernate
  · by_cases hw : dkp_daemon_check_swap mi < 80
    · simp [hh, hw, hsw]
    · simp [hh, hw, hsw]
  · simp [hh, hsw]

/-- C5 (witness): with a kernel advertising mem and disk but a swap
pressure of 100 percent, the exposed can-hibernate capability is
false. -/
theorem c5_can_hibernate_witness :
    80 ≤ dkp_daemon_check_swap
      (some "MemTotal: 1 kB\nActive: 1000 kB\nSwapFree: 1000 kB") ∧
    get_can_hibernate
      (dkp_daemon_init (some "mem disk")
        (some "MemTotal: 1 kB\nActive: 1000 kB\nSwapFree: 1000 kB")) = false :=
  ⟨by decide,
   (c5_can_hibernate_property (some "mem disk")
      (some "MemTotal: 1 kB\nActive: 1000 kB\nSwapFree: 1000 kB")).2.2.1 (by decide)⟩

/-- C6 (counterexample): the scanning loop starts at the second line,
so a memory-statistics source whose first line is Active: 400 kB
followed by SwapFree: 1000 kB reports pressure 0, not the 40 percent
the claim states. -/
theorem c6_swap_probe_counterexample :
    ¬ (dkp_daemon_check_swap (some "Active: 400 kB\nSwapFree: 1000 kB") = 40) := by
  decide

/-- C6 (amended): the probe extracts SwapFree and Active from the
colon/space-delimited lines AFTER the first line of the source; with
Active: 400 kB and SwapFree: 1000 kB both on non-first lines the
pressure is 40; whenever either extracted field is zero (in particular
absent), or the source cannot be read, the pressure is 0. -/
theorem c6_swap_probe_amended :
    dkp_daemon_check_swap
      (some "MemTotal: 2000 kB\nActive: 400 kB\nSwapFree: 1000 kB") = 40 ∧
    (∀ c : String, (swapFields c).1 = 0 ∨ (swapFields c).2 = 0 →
      dkp_daemon_check_swap (some c) = 0) ∧
    dkp_daemon_check_swap none = 0 := by
  refine ⟨by decide, ?_, rfl⟩
  intro c h
  rcases h with h | h <;> simp [dkp_daemon_check_swap, h]

/-- C6 (witness): the amended statement evaluated on the empty source,
whose extracted fields are both zero. -/
theorem c6_swap_probe_witness :
    ((swapFields "").1 = 0 ∨ (swapFields "").2 = 0) ∧
    dkp_daemon_check_swap (some "") = 0 :=
  ⟨by decide, c6_swap_probe_amended.2.1 "" (by decide)⟩

/-- C7: writing the currently stored lid value changes nothing and
emits no changed notification; writing a different value with notify
false stores it and emits nothing; writing a different value with
notify true stores it and emits exactly one changed notification. -/
theorem c7_set_lid (priv : DaemonPriv) (v notify : Bool) :
    (priv.lid_is_closed = v →
      dkp_daemon_set_lid_is_closed priv v notify = (false, priv, 0)) ∧
    (priv.lid_is_closed ≠ v → notify = false →
      dkp_daemon_set_lid_is_closed priv v notify =
        (true, { priv with lid_is_closed := v }, 0)) ∧
    (priv.lid_is_closed ≠ v → notify = true →
      dkp_daemon_set_lid_is_closed priv v notify =
        (true, { priv with lid_is_closed := v }, 1)) := by
  refine ⟨?_, ?_, ?_⟩
  · intro h
    simp [dkp_daemon_set_lid_is_closed, h]
  · intro h hn
    simp [dkp_daemon_set_lid_is_closed, h, hn]
  · intro h hn
    simp [dkp_daemon_set_lid_is_closed, h, hn]

/-- C7 (witness): closing the lid of a fresh daemon with notification
enabled stores the value and emits one changed notification. -/
theorem c7_set_lid_witness :
    emptyPriv.lid_is_closed ≠ true ∧ (true : Bool) = true ∧
    dkp_daemon_set_lid_is_closed emptyPriv true true =
      (true, { emptyPriv with lid_is_closed := true }, 1) :=
  ⟨by decide, rfl, (c7_set_lid emptyPriv true true).2.2 (by decide) rfl⟩

/-- C8: an explicit remove event marks the device removed, drops it
from the registry and emits exactly one device-removed notification
with its object path; a weak-release drops it from the registry with no
notification at all; and an add immediately followed by the release of
its owner leaves only the device-added notification and the device
absent from EnumerateDevices. -/
theorem c8_removal_asymmetry (w : DaemonWorld) (device : DkpDevice) :
    ((dkp_daemon_device_removed_cb w device).signals =
        w.signals ++ [DSignal.deviceRemoved device.object_path] ∧
      device.object_path ∈ (dkp_daemon_device_removed_cb w device).removed_marked ∧
      device.object_path ∉
        dkp_daemon_enumerate_devices (dkp_daemon_device_removed_cb w device)) ∧
    ((dkp_daemon_device_went_away_cb w device).signals = w.signals ∧
      device.object_path ∉
        dkp_daemon_enumerate_devices (dkp_daemon_device_went_away_cb w device)) ∧
    ((dkp_daemon_device_went_away_cb
        (dkp_daemon_device_added_cb w device true) device).signals =
        w.signals ++ [DSignal.deviceAdded device.object_path] ∧
      device.object_path ∉ dkp_daemon_enumerate_devices
        (dkp_daemon_device_went_away_cb (dkp_daemon_device_added_cb w device true) device)) := by
  refine ⟨⟨?_, ?_, ?_⟩, ⟨?_, ?_⟩, ⟨?_, ?_⟩⟩ <;>
    simp [dkp_daemon_device_removed_cb, dkp_daemon_device_went_away_cb,
      dkp_daemon_device_added_cb, dkp_daemon_enumerate_devices, dkp_device_list_remove]

/-- C9 (counterexample): two line-power change events processed before
any pending timer fires leave two pending battery-refresh timers, not
the at-most-one the claim states. -/
theorem c9_timer_counterexample :
    (dkp_daemon_device_changed_cb
        (dkp_daemon_device_changed_cb emptyWorld linePowerDemo true)
        linePowerDemo true).pending_timers = 2 ∧
    ¬ (2 ≤ 1) := by
  decide

/-- C9 (amended): every line-power change event registers exactly one
additional pending battery-refresh timer (they accumulate, one per
change, with no coalescing), and each timer is one-shot: its callback
returns false so the fired source is removed. -/
theorem c9_timer_amended (w : DaemonWorld) (device : DkpDevice) (emit_signal : Bool) :
    ((dkp_daemon_device_changed_cb w device emit_signal).pending_timers =
      w.pending_timers + (if device.type = DkpDeviceType.linePower then 1 else 0)) ∧
    (dkp_daemon_refresh_battery_devices_cb w).1 = false := by
  constructor
  · unfold dkp_daemon_device_changed_cb
    by_cases h1 : device.type == DkpDeviceType.linePower <;>
      simp only [h1, Bool.false_eq_true, ite_true, ite_false] <;>
      split <;> split <;> simp_all
  · rfl

/-- C10: in every capability-gate failure branch of Suspend and
Hibernate, g_error_free is invoked on error_local while it is still
NULL: the trace of the failed request contains a free of the null error
object. -/
theorem c10_free_null_error (priv : DaemonPriv) (env : PowerEnv) :
    (priv.kernel_can_suspend = false →
      PowerEvent.freeError none ∈ dkp_daemon_suspend priv env) ∧
    ((priv.kernel_can_hibernate && priv.kernel_has_swap_space) = false →
      PowerEvent.freeError none ∈ dkp_daemon_hibernate priv env) := by
  constructor
  · intro h
    simp [dkp_daemon_suspend, h]
  · intro h
    rcases Bool.and_eq_false_iff.mp h with h1 | h1 <;>
      cases hh : priv.kernel_can_hibernate <;>
      simp_all [dkp_daemon_hibernate]

/-- C10 (witness): on the fresh daemon record both gates fail and both
traces contain the free of the null error object. -/
theorem c10_free_null_witness :
    (emptyPriv.kernel_can_suspend = false ∧
      PowerEvent.freeError none ∈ dkp_daemon_suspend emptyPriv ⟨true, true, true, ""⟩) ∧
    ((emptyPriv.kernel_can_hibernate && emptyPriv.kernel_has_swap_space) = false ∧
      PowerEvent.freeError none ∈ dkp_daemon_hibernate emptyPriv ⟨true, true, true, ""⟩) :=
  ⟨⟨by decide, (c10_free_null_error emptyPriv ⟨true, true, true, ""⟩).1 (by decide)⟩,
   ⟨by decide, (c10_free_null_error emptyPriv ⟨true, true, true, ""⟩).2 (by decide)⟩⟩

end DkpDaemonModel
